import Mathlib

/-!
# Verification of the XPR Guru quiz bot session/score logic

Shallow embedding of the session and scoring logic of the XPR Guru
Telegram quiz bot.  The embedding covers:

* `src/src/bot.ts` — the current bot: question fetching
  (`getRandomQuestion`), score update (`updateSessionScore`), the answer
  callback, the `/next` handler (`updateSessionProgress`) and the
  accuracy computation of the `/finish` handlers.
* `src/unnamed/part_001` — the revision holding `getOrCreateSession`
  (session resolution by most recent row) and the answer callback that
  reads the `activeQuestions` in-flight pairing.
* `src/unnamed/part_003` — the revision holding the status-based session
  model (`status: active | completed`), `completeSession` and
  `updateSessionStep`.

Database rows are modelled as records, nullable columns as `Option`,
the stores as lists of rows, and each asynchronous handler as a pure
state-transforming function on those rows.  The random draw of
`Math.floor(Math.random() * n)` is modelled by an externally supplied
natural number reduced modulo the population size.
-/

namespace XprGuru

/-- A row of the `questions` table, per the schema used by
`src/src/bot.ts`: id, question text, nullable choices array, correct
answer text, nullable correct-choice index, nullable explanation,
topic tags. -/
structure Question where
  id : String
  question : String
  choices : Option (List String)
  answer : String
  answer_index : Option Nat
  answer_info : Option String
  tags : List String
deriving DecidableEq

/-- A row of the `sessions` table as read by the handlers of
`src/src/bot.ts` and `src/unnamed/part_001`: the `questions` and
`correct` counters are nullable (`session.questions || 0` in the
source). -/
structure Session where
  id : Nat
  questions : Option Nat
  correct : Option Nat
deriving DecidableEq

/-- `updateSessionScore` (src/src/bot.ts lines 86–106): read the session
row, compute `questions = (session.questions || 0) + 1` and
`correct = (session.correct || 0) + (isCorrect ? 1 : 0)`, and write both
columns back. -/
def updateSessionScore (s : Session) (isCorrect : Bool) : Session :=
  { s with
    questions := some (s.questions.getD 0 + 1)
    correct := some (s.correct.getD 0 + (if isCorrect then 1 else 0)) }

/-- The answer comparison of the answer callback
(src/src/bot.ts line 231): `givenAnswerIndex === question.answer_index`.
A `null` stored index compares unequal to every submitted index. -/
def answerMatches (q : Question) (givenAnswerIndex : Nat) : Bool :=
  q.answer_index == some givenAnswerIndex

/-- C1: when the submitted answer matches the question's correct answer
(index equality against `answer_index`), `updateSessionScore` increments
both the `questions` and `correct` counters by exactly 1; when it does
not match, it increments only `questions` and leaves `correct`
unchanged. -/
theorem updateSessionScore_spec (s : Session) (q : Question) (idx : Nat) :
    (answerMatches q idx = true →
      (updateSessionScore s (answerMatches q idx)).questions = some (s.questions.getD 0 + 1) ∧
      (updateSessionScore s (answerMatches q idx)).correct = some (s.correct.getD 0 + 1)) ∧
    (answerMatches q idx = false →
      (updateSessionScore s (answerMatches q idx)).questions = some (s.questions.getD 0 + 1) ∧
      (updateSessionScore s (answerMatches q idx)).correct = some (s.correct.getD 0)) := by
  constructor <;> intro h <;> rw [updateSessionScore, h] <;> simp

/-- A sample question row used for concrete evaluations. -/
def sampleQuestion : Question :=
  { id := "q1"
    question := "What is XPR?"
    choices := some ["a chain", "a fish"]
    answer := "a chain"
    answer_index := some 0
    answer_info := none
    tags := ["dev"] }

/-- A sample session row used for concrete evaluations. -/
def sampleSession : Session := { id := 1, questions := some 3, correct := some 2 }

/-- Witness for C1: evaluating `updateSessionScore_spec` at the sample
session and question, for a matching answer (index 0). -/
theorem updateSessionScore_spec_witness :
    (updateSessionScore sampleSession (answerMatches sampleQuestion 0)).questions = some 4 ∧
    (updateSessionScore sampleSession (answerMatches sampleQuestion 0)).correct = some 3 :=
  (updateSessionScore_spec sampleSession sampleQuestion 0).1 (by decide)

/-- A freshly created session row: counters zeroed
(src/src/bot.ts lines 116–124, src/unnamed/part_001 lines 90–96). -/
def freshSession (id : Nat) : Session := { id := id, questions := some 0, correct := some 0 }

/-- A sequence of answer evaluations applied to a session: each element
of `results` is the match outcome of one evaluated answer, folded
through `updateSessionScore`. -/
def runEvaluations (s : Session) (results : List Bool) : Session :=
  results.foldl updateSessionScore s

/-- `updateSessionScore` preserves `correct ≤ questions` along any run. -/
theorem runEvaluations_le (results : List Bool) (s : Session)
    (h : s.correct.getD 0 ≤ s.questions.getD 0) :
    (runEvaluations s results).correct.getD 0 ≤ (runEvaluations s results).questions.getD 0 := by
  induction results generalizing s with
  | nil => exact h
  | cons b bs ih =>
      apply ih
      cases b <;> simp [updateSessionScore] <;> omega

/-- C2: starting from a freshly created session (`questions = 0`,
`correct = 0`), every sequence of answer evaluations leaves
`correct ≤ questions`. -/
theorem score_monotonicity (id : Nat) (results : List Bool) :
    (runEvaluations (freshSession id) results).correct.getD 0 ≤
      (runEvaluations (freshSession id) results).questions.getD 0 :=
  runEvaluations_le results (freshSession id) (by simp [freshSession])

/-- `updateSessionProgress` (src/src/bot.ts lines 157–166): overwrite the
`questions` and `correct` columns of the session row with the given
values. -/
def updateSessionProgress (s : Session) (questions correct : Nat) : Session :=
  { s with questions := some questions, correct := some correct }

/-- The `/next` command handler (src/src/bot.ts lines 275–295, identical
in the `⏭️ Next` `hears` handler): read `currentQuestions =
session.questions || 0` and `currentCorrect = session.correct || 0`,
then call `updateSessionProgress(id, currentQuestions + 1,
currentCorrect)`. -/
def nextCommand (s : Session) : Session :=
  updateSessionProgress s (s.questions.getD 0 + 1) (s.correct.getD 0)

/-- C10: a successfully handled next event increments the resolved
session's `questions` counter by exactly 1 and leaves its `correct`
counter unchanged. -/
theorem nextCommand_frame (s : Session) :
    (nextCommand s).questions.getD 0 = s.questions.getD 0 + 1 ∧
    (nextCommand s).correct.getD 0 = s.correct.getD 0 := by
  simp [nextCommand, updateSessionProgress]

/-- The accuracy reported by the `/finish` handlers
(src/src/bot.ts lines 305–308, src/unnamed/part_001 lines 309–312):
`questions > 0 ? Math.round((correct / questions) * 100) : 0`.
`Math.round x = ⌊x + 1/2⌋` on non-negative reals, which is Mathlib's
`round`. -/
def accuracy (questions correct : Nat) : ℤ :=
  if 0 < questions then round (((correct : ℚ) / questions) * 100) else 0

/-- C3: the reported accuracy is `round (100 × correct / questions)`,
is 0 when `questions = 0`, and in particular `questions = 7, correct =
5` yields 71. -/
theorem accuracy_spec :
    (∀ c, accuracy 0 c = 0) ∧
    (∀ q c, 0 < q → accuracy q c = round ((100 * (c : ℚ)) / q)) ∧
    accuracy 7 5 = 71 := by
  refine ⟨fun c => by simp [accuracy], fun q c hq => ?_, ?_⟩
  · rw [accuracy, if_pos hq]
    congr 1
    ring
  · rw [accuracy, if_pos (by norm_num)]
    rw [round_eq]
    norm_num

/-- Witness for C3: evaluating `accuracy_spec` at `questions = 7`,
`correct = 5` and at `questions = 0`. -/
theorem accuracy_spec_witness :
    accuracy 7 5 = round ((100 * (5 : ℚ)) / 7) ∧ accuracy 0 5 = 0 :=
  ⟨accuracy_spec.2.1 7 5 (by norm_num), accuracy_spec.1 5⟩

/-- The mode filter of `getRandomQuestion`
(src/src/bot.ts lines 41–44): when `mode` is not `"mixed"`, keep only
the questions whose `tags` contain `mode`; otherwise keep all
questions. -/
def filterByMode (questions : List Question) (mode : String) : List Question :=
  if mode = "mixed" then questions else questions.filter (fun q => q.tags.contains mode)

/-- `getRandomQuestion` (src/src/bot.ts lines 36–55): fetch the filtered
question set; return nothing when it is empty, otherwise the question at
`Math.floor(Math.random() * questions.length)`.  The random draw is
modelled by the extra argument `randomIndex`, reduced modulo the size of
the filtered set (the source's draw is uniform over exactly those
indices). -/
def getRandomQuestion (questions : List Question) (mode : String) (randomIndex : Nat) :
    Option Question :=
  let filtered := filterByMode questions mode
  if filtered.isEmpty then none
  else filtered.get? (randomIndex % filtered.length)

/-- C7: `getRandomQuestion` returns nothing exactly when the filtered
set is empty; any returned question belongs to the filtered set; every
position of the filtered set is returned for the corresponding draw
(uniform selection over the filtered set); and when the mode is not
`"mixed"` every returned question carries that mode among its tags. -/
theorem getRandomQuestion_spec (questions : List Question) (mode : String) :
    (∀ r, getRandomQuestion questions mode r = none ↔ filterByMode questions mode = []) ∧
    (∀ r q, getRandomQuestion questions mode r = some q → q ∈ filterByMode questions mode) ∧
    (∀ i, i < (filterByMode questions mode).length →
      getRandomQuestion questions mode i = (filterByMode questions mode).get? i) ∧
    (∀ r q, mode ≠ "mixed" → getRandomQuestion questions mode r = some q →
      q.tags.contains mode = true) := by
  refine ⟨fun r => ?_, fun r q h => ?_, fun i hi => ?_, fun r q hm h => ?_⟩
  · rw [getRandomQuestion]
    by_cases he : (filterByMode questions mode).isEmpty
    · simp [he, List.isEmpty_iff.mp he]
    · rw [if_neg he]
      have hlen : 0 < (filterByMode questions mode).length := by
        cases hf : filterByMode questions mode with
        | nil => exact absurd (by simp [hf]) he
        | cons a l => simp [hf]
      have : r % (filterByMode questions mode).length <
          (filterByMode questions mode).length := Nat.mod_lt _ hlen
      simp only [List.get?_eq_getElem?, List.getElem?_eq_getElem this]
      constructor
      · intro hc
        exact absurd hc (by simp)
      · intro hc
        exact absurd hc (by simpa using he)
  · rw [getRandomQuestion] at h
    by_cases he : (filterByMode questions mode).isEmpty
    · simp [he] at h
    · rw [if_neg he] at h
      exact List.get?_mem h
  · rw [getRandomQuestion]
    have hne : ¬ (filterByMode questions mode).isEmpty := by
      cases hf : filterByMode questions mode with
      | nil => rw [hf] at hi; simp at hi
      | cons a l => simp [hf]
    rw [if_neg hne, Nat.mod_eq_of_lt hi]
  · have hq : q ∈ filterByMode questions mode := by
      rw [getRandomQuestion] at h
      by_cases he : (filterByMode questions mode).isEmpty
      · simp [he] at h
      · rw [if_neg he] at h
        exact List.get?_mem h
    rw [filterByMode, if_neg hm] at hq
    exact (List.mem_filter.mp hq).2

/-- Witness for C7: drawing from a one-question store in mode `"dev"`
returns the sample question, which is tagged `"dev"`. -/
theorem getRandomQuestion_spec_witness :
    sampleQuestion.tags.contains "dev" = true :=
  (getRandomQuestion_spec [sampleQuestion] "dev").2.2.2 0 sampleQuestion
    (by decide) (by decide)

/-- Result of session resolution: either the existing most recent row
is returned, or a newly inserted row is returned. -/
inductive SessionResult
  | resumed (s : Session)
  | created (s : Session)
deriving DecidableEq

/-- `getOrCreateSession` (src/unnamed/part_001 lines 74–138, same logic
in src/unnamed/part_002 lines 22–83): fetch the most recently created
session row for the user; if it exists and its `questions` column is not
null (`existingSession.questions !== null`), insert and return a new row
with both counters zero; if it exists otherwise, return it unchanged;
if none exists, insert and return a new zeroed row.  `newId` stands for
the id the store assigns to an inserted row. -/
def getOrCreateSession (mostRecent : Option Session) (newId : Nat) : SessionResult :=
  match mostRecent with
  | some existing =>
      if existing.questions ≠ none then
        SessionResult.created (freshSession newId)
      else
        SessionResult.resumed existing
  | none => SessionResult.created (freshSession newId)

/-- C4 (code bug): an unused most recent session — freshly created, with
`questions = 0` recorded — is not resumed; because the code tests
`questions !== null` instead of `questions > 0`, it inserts and returns
a brand-new session.  Every session the code itself inserts has
`questions = 0`, not null, so the resume branch is dead for them and the
claimed idempotent resume never happens. -/
theorem getOrCreateSession_unused_creates_new :
    getOrCreateSession (some (freshSession 7)) 8 = SessionResult.created (freshSession 8) ∧
    getOrCreateSession (some (freshSession 7)) 8 ≠ SessionResult.resumed (freshSession 7) := by
  constructor <;> decide

/-- Per-session interaction state of src/unnamed/part_001: the session
row together with that session's entry in the `activeQuestions` map (the
in-flight pairing). -/
structure BotState where
  session : Session
  pairing : Option Question
deriving DecidableEq

/-- The answer callback of src/unnamed/part_001 (lines 191–276): read
the in-flight pairing from `activeQuestions`.  If absent, store a newly
fetched question and score nothing.  If present, score
`userAnswer === question.answer` via `updateSessionScore` and only
afterwards overwrite the pairing with the prefetched next question —
the pairing is never cleared before or at the moment it is read.
`fetchedQuestion` stands for the successful `getRandomQuestion` result
used in either branch. -/
def answerCallback (st : BotState) (userAnswer : String) (fetchedQuestion : Question) :
    BotState :=
  match st.pairing with
  | none => { st with pairing := some fetchedQuestion }
  | some q =>
      { session := updateSessionScore st.session (userAnswer == q.answer)
        pairing := some fetchedQuestion }

/-- A second sample question, used as the prefetched next question. -/
def sampleQuestion2 : Question :=
  { id := "q2"
    question := "What is a block?"
    choices := some ["a batch", "a fish"]
    answer := "a batch"
    answer_index := some 0
    answer_info := none
    tags := ["user"] }

/-- C5 (code bug): the pairing is not consumed on read, so a duplicate
answer event is not rejected.  Starting from a fresh session paired with
`sampleQuestion`, the same answer event delivered twice increments the
`questions` counter twice (0 → 1 → 2): the second event finds a live
pairing (the prefetched next question) and is scored again instead of
being rejected. -/
theorem answerCallback_double_score :
    (answerCallback { session := freshSession 1, pairing := some sampleQuestion }
        "a chain" sampleQuestion2).session.questions = some 1 ∧
    (answerCallback
        (answerCallback { session := freshSession 1, pairing := some sampleQuestion }
          "a chain" sampleQuestion2)
        "a chain" sampleQuestion2).session.questions = some 2 := by
  constructor <;> decide

/-- Outcome reported to the user by the answer callback of
src/src/bot.ts. -/
inductive AnswerOutcome
  | errorQuestionId
  | errorAnswerIndex
  | errorQuestionFetch
  | scored (isCorrect : Bool)
deriving DecidableEq

/-- `parseInt` applied to the single captured digit character of the
`^answer:(.+)_(\d)$` callback payload: a digit parses to its value,
anything else is `NaN` (modelled as `none`). -/
def parseAnswerIndex (c : Char) : Option Nat :=
  if c.isDigit then some (c.toNat - Char.toNat '0') else none

/-- The answer callback of src/src/bot.ts (lines 197–272) up to and
including the score update.  The payload captures are `questionId` and
the digit character `answerChar`; an empty question id, an unparseable
index, an unknown question id (`getQuestionById` finds no row) or a
question with null `choices` each reply with an error and return without
touching the session or the `activeQuestions` pairing.  Otherwise the
answer is scored by index equality through `updateSessionScore`. -/
def answerAction (questionStore : List Question) (st : BotState)
    (questionId : String) (answerChar : Char) : BotState × AnswerOutcome :=
  if questionId = "" then (st, AnswerOutcome.errorQuestionId)
  else
    match parseAnswerIndex answerChar with
    | none => (st, AnswerOutcome.errorAnswerIndex)
    | some givenAnswerIndex =>
        match questionStore.find? (fun q => q.id == questionId) with
        | none => (st, AnswerOutcome.errorQuestionFetch)
        | some question =>
            if question.choices = none then (st, AnswerOutcome.errorQuestionFetch)
            else
              let isCorrect := answerMatches question givenAnswerIndex
              ({ st with session := updateSessionScore st.session isCorrect },
                AnswerOutcome.scored isCorrect)

/-- C9: an answer event with a malformed payload — an unparseable choice
index or a question id not present in the store — is rejected with an
error outcome, never scored, and leaves the session counters and the
in-flight pairing exactly as they were. -/
theorem answerAction_malformed_unchanged (questionStore : List Question) (st : BotState)
    (questionId : String) (answerChar : Char)
    (h : parseAnswerIndex answerChar = none ∨
      questionStore.find? (fun q => q.id == questionId) = none) :
    (answerAction questionStore st questionId answerChar).1 = st ∧
    ∀ b, (answerAction questionStore st questionId answerChar).2 ≠ AnswerOutcome.scored b := by
  rw [answerAction]
  by_cases hid : questionId = ""
  · simp [hid]
  · rw [if_neg hid]
    rcases h with h | h
    · simp [h]
    · rw [h]
      cases hp : parseAnswerIndex answerChar <;> simp

/-- Witness for C9: a payload whose index character is `'x'` (not a
digit) against an empty question store is rejected and the state — the
sample session paired with the sample question — is unchanged. -/
theorem answerAction_malformed_unchanged_witness :
    (answerAction [] { session := sampleSession, pairing := some sampleQuestion }
        "q1" 'x').1 = { session := sampleSession, pairing := some sampleQuestion } ∧
    ∀ b, (answerAction [] { session := sampleSession, pairing := some sampleQuestion }
        "q1" 'x').2 ≠ AnswerOutcome.scored b :=
  answerAction_malformed_unchanged [] _ "q1" 'x' (Or.inl (by decide))

namespace P3

/-- Session status of the status-based revision
(src/unnamed/part_003): `'active' | 'completed'`. -/
inductive Status
  | active
  | completed
deriving DecidableEq

/-- A row of the `sessions` table of src/unnamed/part_003: id, progress
counter `current_step`, status and the `updated_at` timestamp the
handlers refresh on every write.  (`user_id`, `telegram_username` and
`created_at` are written once at insertion and never read by the logic;
the store below holds one user's rows.) -/
structure Session where
  id : Nat
  current_step : Nat
  status : Status
  updated_at : Nat
deriving DecidableEq

/-- The number of rows with status active in the user's store. -/
def countActive (store : List Session) : Nat :=
  (store.filter (fun s => s.status == Status.active)).length

/-- The lookup of `getOrCreateSession` (src/unnamed/part_003 lines
66–71): select the rows with `status = 'active'` for the user and call
`.single()`, which yields a row exactly when the result set has one
element and errors (yielding nothing) otherwise. -/
def findActive (store : List Session) : Option Session :=
  match store.filter (fun s => s.status == Status.active) with
  | [s] => some s
  | _ => none

/-- `getOrCreateSession` (src/unnamed/part_003 lines 60–99): return the
single active session if the lookup finds one; otherwise insert a new
row with `current_step = 1` and `status = 'active'` and return it.  The
store assigns the inserted row a fresh id, modelled as the row count;
`t` is the insertion timestamp. -/
def getOrCreateSession (store : List Session) (t : Nat) : List Session × Session :=
  match findActive store with
  | some s => (store, s)
  | none =>
      (store ++ [⟨store.length, 1, Status.active, t⟩], ⟨store.length, 1, Status.active, t⟩)

/-- `updateSessionStep` (src/unnamed/part_003 lines 102–110): set
`current_step` and refresh `updated_at` on the rows with the given id. -/
def updateSessionStep (store : List Session) (sessionId stepValue t : Nat) : List Session :=
  store.map (fun s =>
    if s.id = sessionId then { s with current_step := stepValue, updated_at := t } else s)

/-- `completeSession` (src/unnamed/part_003 lines 113–121): set
`status = 'completed'` and refresh `updated_at` on the rows with the
given id. -/
def completeSession (store : List Session) (sessionId t : Nat) : List Session :=
  store.map (fun s =>
    if s.id = sessionId then { s with status := Status.completed, updated_at := t } else s)

/-- The user events handled by src/unnamed/part_003 (each `/command` and
its button twin run the same session logic). -/
inductive Event
  | start
  | next
  | finish
deriving DecidableEq

/-- One handler invocation of src/unnamed/part_003 at time `t`:
`start` resolves (creating if needed) the session; `next` additionally
bumps `current_step`; `finish` additionally calls `completeSession` on
the resolved session's id. -/
def handle (store : List Session) (e : Event) (t : Nat) : List Session :=
  match e with
  | Event.start => (getOrCreateSession store t).1
  | Event.next =>
      updateSessionStep (getOrCreateSession store t).1 (getOrCreateSession store t).2.id
        ((getOrCreateSession store t).2.current_step + 1) t
  | Event.finish =>
      completeSession (getOrCreateSession store t).1 (getOrCreateSession store t).2.id t

/-- A whole interaction history for one user, starting from an empty
store, each event stamped with a strictly increasing clock. -/
def run (events : List Event) : List Session :=
  (events.foldl (fun p e => (handle p.1 e p.2, p.2 + 1)) (([] : List Session), 0)).1

/-- Session resolution preserves "at most one active row": it either
returns the store unchanged or appends one active row to a store with
none. -/
theorem countActive_getOrCreate (store : List Session) (t : Nat)
    (h : countActive store ≤ 1) : countActive (getOrCreateSession store t).1 ≤ 1 := by
  rw [getOrCreateSession]
  cases hf : findActive store with
  | some s => simpa using h
  | none =>
      have h0 : store.filter (fun s => s.status == Status.active) = [] := by
        rw [findActive] at hf
        rw [countActive] at h
        cases hfl : store.filter (fun s => s.status == Status.active) with
        | nil => rfl
        | cons a l =>
            cases l with
            | nil => rw [hfl] at hf; exact absurd hf (by simp)
            | cons b l2 => rw [hfl] at h; simp at h
      simp [countActive, List.filter_append, h0]

/-- A row-wise rewrite that never alters statuses leaves the active
count unchanged. -/
theorem countActive_map (f : Session → Session) (hf : ∀ s, (f s).status = s.status)
    (store : List Session) : countActive (store.map f) = countActive store := by
  induction store with
  | nil => rfl
  | cons s rest ih =>
      simp only [countActive, List.map_cons, List.filter_cons, hf s] at ih ⊢
      split <;> simp [ih]

/-- `updateSessionStep` leaves the active count unchanged. -/
theorem countActive_updateSessionStep (store : List Session) (sessionId stepValue t : Nat) :
    countActive (updateSessionStep store sessionId stepValue t) = countActive store := by
  apply countActive_map
  intro s
  by_cases hs : s.id = sessionId <;> simp [hs]

/-- `completeSession` never increases the active count. -/
theorem countActive_completeSession_le (store : List Session) (sessionId t : Nat) :
    countActive (completeSession store sessionId t) ≤ countActive store := by
  induction store with
  | nil => exact le_refl _
  | cons s rest ih =>
      simp only [completeSession, countActive, List.map_cons, List.filter_cons] at ih ⊢
      by_cases hs : s.id = sessionId
      · rw [if_pos hs]
        have hc : ((Status.completed : Status) == Status.active) = false := rfl
        simp only [hc, Bool.false_eq_true, if_false]
        split
        · exact le_trans ih (Nat.le_succ _)
        · exact ih
      · rw [if_neg hs]
        split
        · exact Nat.succ_le_succ ih
        · exact ih

/-- Every single handler invocation preserves "at most one active
row". -/
theorem countActive_handle (store : List Session) (e : Event) (t : Nat)
    (h : countActive store ≤ 1) : countActive (handle store e t) ≤ 1 := by
  cases e with
  | start => exact countActive_getOrCreate store t h
  | next =>
      rw [handle, countActive_updateSessionStep]
      exact countActive_getOrCreate store t h
  | finish =>
      exact le_trans (countActive_completeSession_le _ _ _)
        (countActive_getOrCreate store t h)

/-- The fold underlying `run` preserves "at most one active row". -/
theorem countActive_runAux (events : List Event) (p : List Session × Nat)
    (h : countActive p.1 ≤ 1) :
    countActive ((events.foldl (fun p e => (handle p.1 e p.2, p.2 + 1)) p)).1 ≤ 1 := by
  induction events generalizing p with
  | nil => exact h
  | cons e es ih => exact ih _ (countActive_handle _ _ _ h)

/-- C6: for every sequence of start/next/finish events from the same
user, the store never holds two concurrently active session rows: at
most one row has status active at any time, and creating a new session
never leaves a second active one. -/
theorem single_active_session (events : List Event) : countActive (run events) ≤ 1 :=
  countActive_runAux events (([] : List Session), 0) (by decide)

/-- After `completeSession store i t`, every row with id `i` has status
completed. -/
theorem completeSession_status (store : List Session) (sessionId t : Nat) :
    ∀ s ∈ completeSession store sessionId t, s.id = sessionId →
      s.status = Status.completed := by
  intro s hs hid
  rw [completeSession] at hs
  obtain ⟨s0, hs0, rfl⟩ := List.mem_map.mp hs
  by_cases h0 : s0.id = sessionId
  · simp [h0]
  · rw [if_neg h0] at hid ⊢
    exact absurd hid h0

/-- `completeSession` preserves each row's id and `current_step`. -/
theorem completeSession_id_step (store : List Session) (sessionId t : Nat) :
    (completeSession store sessionId t).map (fun s => (s.id, s.current_step)) =
      store.map (fun s => (s.id, s.current_step)) := by
  rw [completeSession, List.map_map]
  apply List.map_congr_left
  intro s _
  by_cases h : s.id = sessionId <;> simp [h]

/-- Completing a store whose matching rows are already completed leaves
every row's id and status unchanged. -/
theorem completeSession_map_of_completed (l : List Session) (sessionId t : Nat)
    (h : ∀ s ∈ l, s.id = sessionId → s.status = Status.completed) :
    (completeSession l sessionId t).map (fun s => (s.id, s.status)) =
      l.map (fun s => (s.id, s.status)) := by
  rw [completeSession, List.map_map]
  apply List.map_congr_left
  intro s hs
  by_cases hid : s.id = sessionId
  · simp [hid, h s hs hid]
  · simp [hid]

/-- C8: `completeSession` is idempotent and terminal.  Completing the
same session id twice yields status completed on that session's rows
both times, never fails (it is a total update), changes no counter
(`current_step` is preserved by both calls), and the second call leaves
every row's id and status exactly as the first left them. -/
theorem completeSession_idempotent (store : List Session) (sessionId t1 t2 : Nat) :
    (∀ s ∈ completeSession store sessionId t1, s.id = sessionId →
      s.status = Status.completed) ∧
    (∀ s ∈ completeSession (completeSession store sessionId t1) sessionId t2,
      s.id = sessionId → s.status = Status.completed) ∧
    (completeSession store sessionId t1).map (fun s => (s.id, s.current_step)) =
      store.map (fun s => (s.id, s.current_step)) ∧
    (completeSession (completeSession store sessionId t1) sessionId t2).map
        (fun s => (s.id, s.current_step)) =
      store.map (fun s => (s.id, s.current_step)) ∧
    (completeSession (completeSession store sessionId t1) sessionId t2).map
        (fun s => (s.id, s.status)) =
      (completeSession store sessionId t1).map (fun s => (s.id, s.status)) := by
  refine ⟨completeSession_status store sessionId t1,
    completeSession_status _ sessionId t2, completeSession_id_step store sessionId t1,
    ?_, completeSession_map_of_completed _ sessionId t2
      (completeSession_status store sessionId t1)⟩
  rw [completeSession_id_step, completeSession_id_step]

/-- A sample active session row of the part_003 model. -/
def sampleP3Session : Session :=
  { id := 0, current_step := 3, status := Status.active, updated_at := 0 }

/-- Witness for C8: completing the one-row store twice — the completed
row keeps status completed, and `current_step` stays 3 through both
calls. -/
theorem completeSession_idempotent_witness :
    (⟨0, 3, Status.completed, 5⟩ : Session).status = Status.completed ∧
    (completeSession (completeSession [sampleP3Session] 0 5) 0 9).map
        (fun s => (s.id, s.current_step)) =
      [sampleP3Session].map (fun s => (s.id, s.current_step)) :=
  ⟨(completeSession_idempotent [sampleP3Session] 0 5 9).1 ⟨0, 3, Status.completed, 5⟩
      (by decide) rfl,
    (completeSession_idempotent [sampleP3Session] 0 5 9).2.2.2.1⟩

end P3

end XprGuru
